import Mathlib

/-!
Shallow embedding of the RiMayTik Messenger core (src/client/encryption.py,
src/server/main.py, src/server/database.py) for checking the natural-language
specification against the code.

Cryptographic primitives (ECDH, HKDF, AES-GCM, BLAKE2b, RSA-PSS, SHA-256) are
modelled symbolically as constructors of a free term algebra `B` over byte
strings: two derived values are equal exactly when they are built by the same
primitive from the same inputs.  This is the standard symbolic (Dolev-Yao
style) model; it is faithful to the code because each constructor corresponds
to one concrete primitive call in the Python source, and the claims under
study only depend on which derivation each byte string results from.
Randomness (os.urandom, fresh keypairs, uuid, time) is passed in as explicit
parameters, mirroring the nondeterminism of the source.
-/

/-- Symbolic byte strings.  Each constructor corresponds to one way the Python
code produces a byte string:
* `str` - a literal / UTF-8 encoded text (message.encode()),
* `cat` - concatenation `a + b`,
* `dh`  - raw ECDH exchange output `priv_i.exchange(ec.ECDH(), pub_j)`
  (stored with sorted indices, see `dhShared`, so that the exchange is
  commutative as in the real primitive),
* `hkdf256` - the 32-byte HKDF-SHA256 with the info label rimaytik_key_derivation
  applied in `derive_shared_secret` (encryption.py lines 121-130),
* `encHalf` / `macHalf` - the two 32-byte halves `key_material[:32]` and
  `key_material[32:]` of the 64-byte HKDF-SHA512 expansion with the info
  label rimaytik_message_encryption (encryption.py lines 153-163),
* `ratchetSend` / `ratchetRecv` - the two halves of the 64-byte HKDF-SHA256
  expansion with the info label rimaytik_ratchet (encryption.py lines 331-341),
* `blake2b` - keyed hashlib.blake2b with digest_size 32,
* `gcmCt` / `gcmTag` - AES-256-GCM ciphertext and the internal 16-byte
  authentication tag for a given key, nonce, plaintext and associated data,
* `pssSig` - RSA-PSS signature by identity keypair `signer` over `data`
  with PSS salt randomness `r`,
* `ephPub` - PEM serialization of the EC ephemeral public key number `i`,
* `idPub` - PEM serialization of the RSA identity public key number `i`,
* `rand` - an os.urandom output,
* `metaJson` - the json.dumps metadata blob built in encrypt_message
  (a function of the timestamp and the security level). -/
inductive B where
  | str (s : String)
  | cat (a b : B)
  | dh (i j : Nat)
  | hkdf256 (ikm : B)
  | encHalf (ikm salt : B)
  | macHalf (ikm salt : B)
  | ratchetSend (chainKey : B)
  | ratchetRecv (chainKey : B)
  | blake2b (key data : B)
  | gcmCt (key iv pt aad : B)
  | gcmTag (key iv pt aad : B)
  | pssSig (signer : Nat) (data : B) (r : Nat)
  | ephPub (i : Nat)
  | idPub (i : Nat)
  | rand (n : Nat)
  | metaJson (ts lvl : Nat)
deriving DecidableEq, Repr

deriving instance DecidableEq for Except

/-- Commutative raw ECDH shared value between ephemeral keypairs `i` and `j`:
the exchange primitive yields the same bytes from (priv i, pub j) as from
(priv j, pub i). -/
def dhShared (i j : Nat) : B := B.dh (min i j) (max i j)

/-- Error taxonomy of the spec (section 7).  In the Python source every branch
raises ValueError with a distinct message; we keep the typed distinction. -/
inductive CryptoErr where
  | keyAgreementFailure
  | integrityFailure
  | signatureFailure
  | aeadAuthFailure
  | malformedPlaintext
deriving DecidableEq, Repr

/-- The envelope dict returned by `encrypt_message` (encryption.py lines
194-205).  Base64 transport encoding is identity in the model. -/
structure Envelope where
  ciphertext : B
  iv : B
  salt : B
  ephemeral_public_key : B
  hmac : B
  metadata : B
  sig : B
  algorithm : String
  message_id : String
  timestamp : Nat
deriving DecidableEq, Repr

/-- Per-peer ratchet state `self.session_keys[user]`
(encryption.py lines 323-342). -/
structure SessionKeys where
  chain_key_send : B
  chain_key_receive : B
  message_number : Nat
deriving DecidableEq, Repr

/-- State of `RiMayTikEncryptionEngine`: the identity RSA keypair is
`identity_id` (public PEM `B.idPub identity_id`), the current ephemeral EC
keypair is `ephemeral_id` (None before the first generation), and
`session_keys` is the per-peer ratchet dict keyed by the peer public key PEM
(an association list in the model). -/
structure Engine where
  security_level : Nat
  identity_id : Nat
  ephemeral_id : Option Nat
  session_keys : List (B × SessionKeys)
deriving DecidableEq, Repr

/-- `verify_signature` (encryption.py lines 300-319): loads the PEM public
key and checks the RSA-PSS signature, returning False on any failure.  In the
symbolic model a signature verifies exactly when it was produced by the
identity keypair whose public half is the given PEM, over the same data. -/
def verify_signature (data : B) (signature : B) (public_key_pem : B) : Bool :=
  match signature, public_key_pem with
  | B.pssSig signer d _r, B.idPub k => if signer = k ∧ d = data then true else false
  | _, _ => false

/-- AES-256-GCM decryption as invoked in `decrypt_message` (lines 266-274):
`modes.GCM(iv, tag)` followed by update/finalize succeeds and returns the
plaintext exactly when the ciphertext was produced under the same key, nonce
and associated data and the supplied tag equals the internal GCM tag of that
encryption; otherwise InvalidTag is raised. -/
def gcmDecrypt (key iv tag ct aad : B) : Except CryptoErr B :=
  match ct with
  | B.gcmCt k i pt a =>
      if k = key ∧ i = iv ∧ a = aad ∧ tag = B.gcmTag key iv pt aad then
        Except.ok pt
      else Except.error CryptoErr.aeadAuthFailure
  | _ => Except.error CryptoErr.aeadAuthFailure

/-- `_ratchet_keys` (encryption.py lines 321-342) acting on the session_keys
dict: first call for a user stores send = receive = the fresh shared secret
with counter 0; later calls derive 64 bytes of HKDF-SHA256 from
chain_key_send, split them into the new send/receive chain keys, and
increment message_number (the fresh shared secret is ignored then). -/
def ratchet_keys : List (B × SessionKeys) → B → B → List (B × SessionKeys)
  | [], user, sec => [(user, ⟨sec, sec, 0⟩)]
  | (u, st) :: rest, user, sec =>
      if u = user then
        (u, ⟨B.ratchetSend st.chain_key_send, B.ratchetRecv st.chain_key_send,
             st.message_number + 1⟩) :: rest
      else (u, st) :: ratchet_keys rest user sec

/-- Lookup in the session_keys dict (Python `user in self.session_keys` /
`self.session_keys[user]`). -/
def find_session : List (B × SessionKeys) → B → Option SessionKeys
  | [], _ => none
  | (u, st) :: rest, user => if u = user then some st else find_session rest user

/-- `encrypt_message` (encryption.py lines 135-208).  The nondeterministic
inputs are explicit: `freshEph` is the ephemeral keypair generated at line
144, `salt` and `iv` are the os.urandom outputs of lines 150 and 166, `ts`
the time.time() stamp, `sigRand` the PSS salt, `msgId` the uuid message id.
The recipient PEM must be an EC public key (`B.ephPub j`) for the ECDH
exchange in `derive_shared_secret` to succeed; any other key (such as an RSA
identity key `B.idPub`) makes the exchange raise, surfaced as
KeyAgreementFailure.  Note the shared secret fed into the HKDF-SHA512 here is
`hkdf256` of the raw exchange, because `derive_shared_secret` (lines 108-133)
stretches the exchange output through HKDF-SHA256 before returning it. -/
def encrypt_message (e : Engine) (message : String) (recipient_public_key_pem : B)
    (freshEph : Nat) (salt iv : B) (ts sigRand : Nat) (msgId : String) :
    Except CryptoErr (Envelope × Engine) :=
  match recipient_public_key_pem with
  | B.ephPub j =>
      let shared : B := B.hkdf256 (dhShared freshEph j)
      let encryption_key : B := B.encHalf shared salt
      let mac_key : B := B.macHalf shared salt
      let metadata : B := B.metaJson ts e.security_level
      let ct : B := B.gcmCt encryption_key iv (B.str message) metadata
      let mac : B := B.blake2b mac_key (B.cat ct (B.cat iv metadata))
      Except.ok
        ({ ciphertext := ct, iv := iv, salt := salt,
           ephemeral_public_key := B.ephPub freshEph,
           hmac := mac, metadata := metadata,
           sig := B.pssSig e.identity_id (B.cat ct (B.cat iv mac)) sigRand,
           algorithm := "RiMayTik-ECDH-AES256-GCM-BLAKE2b",
           message_id := msgId, timestamp := ts },
         { e with ephemeral_id := some freshEph })
  | _ => Except.error CryptoErr.keyAgreementFailure

/-- `decrypt_message` (encryption.py lines 210-282), step for step:
1. load the sender ephemeral public key and run the raw ECDH exchange with
   the local ephemeral private key (lines 214-223) - note the code does NOT
   pass the exchange output through `derive_shared_secret`, so no HKDF-SHA256
   stretch is applied on this side;
2. re-derive the two key halves from the envelope salt (lines 226-239);
3. recompute the BLAKE2b MAC over ciphertext + iv + metadata and compare in
   constant time; mismatch raises before anything is decrypted (247-255);
4. verify the RSA-PSS signature over ciphertext + iv + hmac (257-263);
5. AES-GCM decrypt, passing the envelope hmac as the GCM tag (265-274);
6. advance the ratchet and decode the plaintext as UTF-8 (276-279). -/
def decrypt_message (e : Engine) (env : Envelope) (sender_public_key_pem : B) :
    Except CryptoErr (String × Engine) :=
  match e.ephemeral_id with
  | none => Except.error CryptoErr.keyAgreementFailure
  | some i =>
    match env.ephemeral_public_key with
    | B.ephPub j =>
        let shared : B := dhShared i j
        let encryption_key : B := B.encHalf shared env.salt
        let mac_key : B := B.macHalf shared env.salt
        let expected_hmac : B :=
          B.blake2b mac_key (B.cat env.ciphertext (B.cat env.iv env.metadata))
        if env.hmac = expected_hmac then
          if verify_signature (B.cat env.ciphertext (B.cat env.iv env.hmac))
              env.sig sender_public_key_pem then
            match gcmDecrypt encryption_key env.iv env.hmac env.ciphertext env.metadata with
            | Except.ok (B.str s) =>
                Except.ok (s, { e with session_keys := ratchet_keys e.session_keys sender_public_key_pem shared })
            | Except.ok _ => Except.error CryptoErr.malformedPlaintext
            | Except.error err => Except.error err
          else Except.error CryptoErr.signatureFailure
        else Except.error CryptoErr.integrityFailure
    | _ => Except.error CryptoErr.keyAgreementFailure

/-- The MAC that `decrypt_message` recomputes for an envelope, given the local
ephemeral keypair id `i` and the sender ephemeral keypair id `j` carried in
the envelope (encryption.py lines 248-252). -/
def recomputed_mac (env : Envelope) (i j : Nat) : B :=
  B.blake2b (B.macHalf (dhShared i j) env.salt)
    (B.cat env.ciphertext (B.cat env.iv env.metadata))

/-- Sender engine of the concrete scenario: Alice, identity keypair 0. -/
def engineA : Engine :=
  { security_level := 2, identity_id := 0, ephemeral_id := none, session_keys := [] }

/-- Receiver engine of the concrete scenario: Bob, identity keypair 1, whose
current ephemeral keypair is number 5 (so his published ephemeral public key
is `B.ephPub 5`, the matching-session reading of `B.public`). -/
def engineB : Engine :=
  { security_level := 2, identity_id := 1, ephemeral_id := some 5, session_keys := [] }

/-- The round trip of the concrete scenario: Alice encrypts "hello" for the
key Bob can compute a shared secret against, and Bob decrypts with Alice
identity public key. -/
def roundTrip : Except CryptoErr String :=
  Except.bind
    (encrypt_message engineA "hello" (B.ephPub 5) 7 (B.rand 1) (B.rand 2) 100 3 "m1")
    (fun p => Except.map (fun q => q.1) (decrypt_message engineB p.1 (B.idPub 0)))

/-! ## Trust Manager (`RiMayTikKeyManager`, encryption.py lines 391-434) -/

/-- One value of the `self.trusted_keys` dict (encryption.py lines 401-406). -/
structure TrustedKey where
  key : String
  fingerprint : String
  added_at : Nat
  verified : Bool
deriving DecidableEq, Repr

/-- The `self.trusted_keys` dict of `RiMayTikKeyManager`, as an association
list keyed by username. -/
abbrev KeyManager := List (String × TrustedKey)

/-- `calculate_fingerprint` (encryption.py lines 417-421): the colon-separated
hex rendering of the first 16 bytes of SHA-256 of the PEM.  The hash itself
is abstracted as a deterministic injective function of the PEM string; the
claims only use that the fingerprint is a fixed function of the key. -/
def calculate_fingerprint (public_key_pem : String) : String :=
  "sha256-fp:" ++ public_key_pem

/-- Dict lookup `username in self.trusted_keys` / `self.trusted_keys[username]`. -/
def find_trusted : KeyManager → String → Option TrustedKey
  | [], _ => none
  | (u, rec) :: rest, user => if u = user then some rec else find_trusted rest user

/-- Dict assignment `self.trusted_keys[username] = rec` (replaces an existing
entry, otherwise appends). -/
def set_trusted : KeyManager → String → TrustedKey → KeyManager
  | [], user, rec => [(user, rec)]
  | (u, old) :: rest, user, rec =>
      if u = user then (u, rec) :: rest else (u, old) :: set_trusted rest user rec

/-- `add_trusted_key` (encryption.py lines 399-406): unconditionally stores a
fresh record with `verified = False`, computing the fingerprint when none is
supplied. -/
def add_trusted_key (km : KeyManager) (username public_key : String)
    (fingerprint : Option String) (now : Nat) : KeyManager :=
  set_trusted km username
    { key := public_key,
      fingerprint := fingerprint.getD (calculate_fingerprint public_key),
      added_at := now,
      verified := false }

/-- `verify_key_fingerprint` (encryption.py lines 408-415): returns True and
sets the stored record verified exactly when a record exists for the user and
the candidate equals the stored fingerprint; otherwise returns False leaving
the dict unchanged. -/
def verify_key_fingerprint (km : KeyManager) (username fingerprint : String) :
    Bool × KeyManager :=
  match find_trusted km username with
  | some rec =>
      if fingerprint = rec.fingerprint then
        (true, set_trusted km username { rec with verified := true })
      else (false, km)
  | none => (false, km)

/-- The Trust Manager operations that touch the trusted-keys store
(get_security_status, lines 423-434, is a pure read). -/
inductive TrustOp where
  | add (username public_key : String) (fingerprint : Option String) (now : Nat)
  | verify (username fingerprint : String)
  | status (username : String)
deriving DecidableEq, Repr

/-- Effect of one Trust Manager operation on the trusted-keys store. -/
def applyTrustOp (km : KeyManager) : TrustOp → KeyManager
  | TrustOp.add u k fp now => add_trusted_key km u k fp now
  | TrustOp.verify u fp => (verify_key_fingerprint km u fp).2
  | TrustOp.status _ => km

/-- Store after the key of Bob is first observed. -/
def kmAdded : KeyManager := applyTrustOp [] (TrustOp.add "bob" "KEYPEM" none 0)

/-- Store after the out-of-band fingerprint verification succeeds. -/
def kmVerified : KeyManager :=
  applyTrustOp kmAdded (TrustOp.verify "bob" (calculate_fingerprint "KEYPEM"))

/-- Store after the same key is observed again (add_trusted_key re-run). -/
def kmReAdded : KeyManager :=
  applyTrustOp kmVerified (TrustOp.add "bob" "KEYPEM" none 1)

/-! ## Server database (`RiMayTikDatabase`, src/server/database.py) -/

/-- A row of the rimaytik_users table (columns used by the handlers under
study; database.py lines 41-55). -/
structure UserRow where
  id : Nat
  username : String
  display_name : String
  public_key : String
  password_hash : String
  status : String
deriving DecidableEq, Repr

/-- A row of the rimaytik_security_sessions table (database.py lines 92-104).
Timestamps are Nat. -/
structure SessionRow where
  user_id : Nat
  session_token : String
  device_info : String
  ip_address : String
  expires_at : Nat
  active : Bool
deriving DecidableEq, Repr

/-- A row of the rimaytik_messages_meta table (database.py lines 73-89).  The
SQL resolves sender/receiver usernames to row ids with subselects; the model
keeps the usernames, which carries the same information for the claims. -/
structure MsgMetaRow where
  message_uuid : String
  sender : String
  receiver : String
  conversation_hash : String
  message_type : String
deriving DecidableEq, Repr

/-- The persistent store owned by `RiMayTikDatabase`. -/
structure DbState where
  users : List UserRow
  sessions : List SessionRow
  messages_meta : List MsgMetaRow
deriving DecidableEq, Repr

/-- SHA-256 hex digest, abstracted as a deterministic injective function of
the input string (used for conversation hashes, envelope content hashes and
session tokens). -/
def sha256hex (s : String) : String := "sha256:" ++ s

/-- bcrypt.hashpw with a fresh salt; the model keeps it deterministic since
no claim under study depends on the salt. -/
def bcrypt_hashpw (password : String) : String := "bcrypt:" ++ password

/-- `validate_rimaytik_session` row scan (database.py lines 265-274): the
query returns the user_id of a row whose session_token matches, whose active
flag is TRUE and whose expires_at is strictly in the future. -/
def find_valid_session : List SessionRow → String → Nat → Option Nat
  | [], _, _ => none
  | r :: rest, token, now =>
      if r.session_token = token ∧ r.active = true ∧ now < r.expires_at then
        some r.user_id
      else find_valid_session rest token now

/-- `validate_rimaytik_session` (database.py lines 265-274). -/
def validate_rimaytik_session (db : DbState) (token : String) (now : Nat) : Option Nat :=
  find_valid_session db.sessions token now

/-- `create_rimaytik_session` (database.py lines 252-263): inserts a row with
expires_at = now + expires_hours and active defaulting to TRUE, then returns
the token.  (The session_token column carries a UNIQUE constraint, so the
table never holds two rows with the same token.) -/
def create_rimaytik_session (db : DbState) (user_id : Nat) (token device_info ip : String)
    (now expires_hours : Nat) : DbState × String :=
  ({ db with sessions := db.sessions ++
      [{ user_id := user_id, session_token := token, device_info := device_info,
         ip_address := ip, expires_at := now + expires_hours * 3600, active := true }] },
   token)

/-- `register_rimaytik_user` (database.py lines 108-132): hashes the password,
inserts the user row with status online (the UNIQUE constraint on username
turns a duplicate into IntegrityError, returned as None), then inserts the
welcome metadata row and returns the fresh row id. -/
def register_rimaytik_user (db : DbState) (username display_name public_key password : String) :
    DbState × Option Nat :=
  if db.users.any (fun r => r.username == username) then (db, none)
  else
    let uid : Nat := db.users.length + 1
    ({ db with
        users := db.users ++
          [{ id := uid, username := username,
             display_name := if display_name = "" then username else display_name,
             public_key := public_key,
             password_hash := bcrypt_hashpw password, status := "online" }],
        messages_meta := db.messages_meta ++
          [{ message_uuid := "welcome_" ++ toString uid, sender := "system",
             receiver := username,
             conversation_hash := sha256hex ("welcome_" ++ toString uid),
             message_type := "system" }] },
     some uid)

/-- `log_rimaytik_message` (database.py lines 199-219): appends one metadata
row (message id, sender, receiver, conversation hash, type) - never any
plaintext. -/
def log_rimaytik_message (db : DbState) (message_uuid sender receiver message_hash : String) :
    DbState :=
  { db with messages_meta := db.messages_meta ++
      [{ message_uuid := message_uuid, sender := sender, receiver := receiver,
         conversation_hash := sha256hex (sender ++ "_" ++ receiver),
         message_type := "text" }] }

/-! ## Connection registry and relay (`RiMayTikServer`, src/server/main.py) -/

/-- One value of the `self.clients` dict: (writer, public_key, session_token)
(server/main.py line 28).  Writers are identified by a handle number. -/
structure ConnEntry where
  writer : Nat
  public_key : String
  session_token : String
deriving DecidableEq, Repr

/-- State of `RiMayTikServer`: the clients dict, the online_users set (kept
as a list) and the owned database.  The server object has no `cursor` or
`conn` attribute - those live on `RiMayTikDatabase` - which matters for
`handle_user_logout` below. -/
structure ServerState where
  clients : List (String × ConnEntry)
  online_users : List String
  db : DbState
deriving DecidableEq, Repr

/-- Dict lookup `username in self.clients` / `self.clients[username]`. -/
def find_client : List (String × ConnEntry) → String → Option ConnEntry
  | [], _ => none
  | (u, c) :: rest, user => if u = user then some c else find_client rest user

/-- `del self.clients[username]`. -/
def remove_client : List (String × ConnEntry) → String → List (String × ConnEntry)
  | [], _ => []
  | (u, c) :: rest, user =>
      if u = user then rest else (u, c) :: remove_client rest user

/-- Dict assignment `self.clients[username] = entry`. -/
def set_client : List (String × ConnEntry) → String → ConnEntry → List (String × ConnEntry)
  | [], user, c => [(user, c)]
  | (u, old) :: rest, user, c =>
      if u = user then (u, c) :: rest else (u, old) :: set_client rest user c

/-- `self.online_users.discard(username)`. -/
def remove_online (l : List String) (user : String) : List String :=
  l.filter (fun u => u != user)

/-- `self.online_users.add(username)`. -/
def add_online (l : List String) (user : String) : List String :=
  if l.contains user then l else l ++ [user]

/-- The response frame a handler returns to the requesting client, keeping
the data-dict fields the handlers under study populate.  `rtype` is the
RiMayTikMessageType value. -/
structure ProtoResponse where
  rtype : String
  error : Option String := none
  status : Option String := none
  suggestion : Option String := none
  message_id : Option String := none
  user_id : Option Nat := none
  session_token : Option String := none
  ts : Option Nat := none
deriving DecidableEq, Repr

/-- The direct-message frame forwarded to the recipient writer
(server/main.py lines 320-330). -/
structure ForwardedDm where
  sender : Option String
  receiver : String
  message_id : String
  encrypted_data : String
  msg_timestamp : Option Nat
deriving DecidableEq, Repr

/-- Python truthiness of an optional string field, as tested by
`all([recipient, message_id, encrypted_data])`. -/
def truthy : Option String → Bool
  | none => false
  | some s => if s = "" then false else true

/-- `handle_rimaytik_direct_message` (server/main.py lines 295-352).  Output:
the new server state, the response returned to the sender, and the list of
(writer, frame) deliveries performed.  If the recipient is in the clients
dict the handler logs only metadata (SHA-256 of the serialized envelope,
sender, receiver, type) and forwards the envelope unchanged to exactly that
writer; otherwise it performs no delivery and no logging and returns the
offline error frame of lines 345-352, whose suggestion text promises
delivery at the next login. -/
def handle_rimaytik_direct_message (s : ServerState) (sender : Option String)
    (receiver : Option String) (message_id : Option String)
    (encrypted_data : Option String) (msg_ts : Option Nat) (now : Nat) :
    ServerState × ProtoResponse × List (Nat × ForwardedDm) :=
  if truthy receiver && truthy message_id && truthy encrypted_data then
    match receiver, message_id, encrypted_data with
    | some r, some mid, some ed =>
        match find_client s.clients r with
        | some entry =>
            let senderName : String := sender.getD "None"
            let message_hash : String := sha256hex ed
            let s2 : ServerState :=
              { s with db := log_rimaytik_message s.db mid senderName r message_hash }
            (s2,
             { rtype := "rimaytik_success", status := some "delivered",
               message_id := some mid, ts := some now },
             [(entry.writer,
               { sender := sender, receiver := r, message_id := mid,
                 encrypted_data := ed, msg_timestamp := msg_ts })])
        | none =>
            (s,
             { rtype := "rimaytik_error",
               error := some "Получатель не в сети",
               message_id := some mid,
               suggestion := some "Сообщение будет доставлено при следующем входе" },
             [])
    | _, _, _ =>
        (s, { rtype := "rimaytik_error",
              error := some "Неполные данные сообщения RiMayTik" }, [])
  else
    (s, { rtype := "rimaytik_error",
          error := some "Неполные данные сообщения RiMayTik" }, [])

/-- `handle_user_logout` (server/main.py lines 407-422).  When the username is
registered, the code deletes the clients entry and discards the username from
the online set, and then executes `self.cursor.execute(...)` - but
`RiMayTikServer.__init__` (lines 17-30) defines no attribute `cursor` (the
cursor lives on `RiMayTikDatabase`), so Python raises AttributeError at that
line: the persisted status update and the presence broadcast are never
reached.  Output: the state after the side effects that did happen, the
writer handles broadcast to, and the raised exception if any. -/
def handle_user_logout (s : ServerState) (username : String) :
    ServerState × List Nat × Option String :=
  match find_client s.clients username with
  | some _ =>
      let s2 : ServerState :=
        { s with clients := remove_client s.clients username,
                 online_users := remove_online s.online_users username }
      (s2, [], some "AttributeError: RiMayTikServer has no attribute cursor")
  | none => (s, [], none)

/-- The session token minted by the register and login handlers
(server/main.py lines 146-148): the first 32 hex characters of SHA-256 over
username, public key and the current timestamp. -/
def mk_session_token (username public_key : String) (now : Nat) : String :=
  sha256hex (username ++ public_key ++ toString now)

/-- `handle_rimaytik_register` (server/main.py lines 119-192).  Output: new
server state, response frame, and the trace of account-store (RiMayTikDatabase)
calls made, in order.  Field-presence and password-length validation happen
before any database call; on success the handler registers the user, creates
a session, installs the connection entry, adds the user to the online set and
broadcasts presence (the broadcast reads the online list from the store). -/
def handle_rimaytik_register (s : ServerState) (username display_name public_key password : Option String)
    (writer : Nat) (client_ip : String) (now : Nat) :
    ServerState × ProtoResponse × List String :=
  if truthy username && truthy public_key && truthy password then
    match username, public_key, password with
    | some u, some pk, some pw =>
        if pw.length < 8 then
          (s, { rtype := "rimaytik_error",
                error := some "Пароль должен быть не менее 8 символов" }, [])
        else
          match register_rimaytik_user s.db u (display_name.getD "") pk pw with
          | (db1, some uid) =>
              let token : String := mk_session_token u pk now
              let created := create_rimaytik_session db1 uid token
                ("RiMayTik Client " ++ client_ip) client_ip now 24
              let s2 : ServerState :=
                { s with db := created.1,
                         clients := set_client s.clients u
                           { writer := writer, public_key := pk, session_token := token },
                         online_users := add_online s.online_users u }
              (s2,
               { rtype := "rimaytik_success", user_id := some uid,
                 session_token := some token },
               ["register_rimaytik_user", "create_rimaytik_session",
                "get_rimaytik_online_users", "get_rimaytik_system_stats"])
          | (db1, none) =>
              ({ s with db := db1 },
               { rtype := "rimaytik_error",
                 error := some "Имя пользователя уже занято в RiMayTik" },
               ["register_rimaytik_user"])
    | _, _, _ =>
        (s, { rtype := "rimaytik_error",
              error := some "Недостаточно данных для регистрации RiMayTik" }, [])
  else
    (s, { rtype := "rimaytik_error",
          error := some "Недостаточно данных для регистрации RiMayTik" }, [])

/-! ## Concrete states used in the evaluations and witnesses -/

/-- Live connection entry of user alice. -/
def entryAlice : ConnEntry := { writer := 10, public_key := "PK_A", session_token := "tokA" }

/-- Live connection entry of user bob. -/
def entryBob : ConnEntry := { writer := 20, public_key := "PK_B", session_token := "tokB" }

/-- Persisted account row of alice (status online while connected). -/
def rowAlice : UserRow :=
  { id := 1, username := "alice", display_name := "Alice", public_key := "PK_A",
    password_hash := "bcrypt:alicepass", status := "online" }

/-- Database holding only alice. -/
def dbS : DbState := { users := [rowAlice], sessions := [], messages_meta := [] }

/-- Server state in which only alice is connected. -/
def srvS : ServerState :=
  { clients := [("alice", entryAlice)], online_users := ["alice"], db := dbS }

/-- Server state in which alice and bob are both connected. -/
def srvS2 : ServerState :=
  { clients := [("alice", entryAlice), ("bob", entryBob)],
    online_users := ["alice", "bob"], db := dbS }

/-- An envelope whose hmac field cannot equal any recomputed BLAKE2b MAC. -/
def envBad : Envelope :=
  { ciphertext := B.rand 4, iv := B.rand 2, salt := B.rand 1,
    ephemeral_public_key := B.ephPub 7, hmac := B.rand 9,
    metadata := B.metaJson 100 2, sig := B.rand 8,
    algorithm := "RiMayTik-ECDH-AES256-GCM-BLAKE2b", message_id := "m1", timestamp := 100 }

/-- The stretched shared secret of the concrete encryption (ephemeral
keypairs 7 and 5). -/
def sharedA : B := B.hkdf256 (B.dh 5 7)

/-- Ciphertext of the concrete encryption of "hello". -/
def ctA : B :=
  B.gcmCt (B.encHalf sharedA (B.rand 1)) (B.rand 2) (B.str "hello") (B.metaJson 100 2)

/-- MAC of the concrete encryption. -/
def macA : B :=
  B.blake2b (B.macHalf sharedA (B.rand 1)) (B.cat ctA (B.cat (B.rand 2) (B.metaJson 100 2)))

/-- The envelope produced by the concrete encryption
`encrypt_message engineA "hello" (B.ephPub 5) 7 (B.rand 1) (B.rand 2) 100 3 "m1"`. -/
def envA : Envelope :=
  { ciphertext := ctA, iv := B.rand 2, salt := B.rand 1,
    ephemeral_public_key := B.ephPub 7, hmac := macA, metadata := B.metaJson 100 2,
    sig := B.pssSig 0 (B.cat ctA (B.cat (B.rand 2) macA)) 3,
    algorithm := "RiMayTik-ECDH-AES256-GCM-BLAKE2b", message_id := "m1", timestamp := 100 }

/-- Engine state of alice after the concrete encryption (fresh ephemeral 7). -/
def engineA2 : Engine := { engineA with ephemeral_id := some 7 }

/-- A session row used in the token-lifecycle witness. -/
def rowTok : SessionRow :=
  { user_id := 1, session_token := "tok", device_info := "dev", ip_address := "ip",
    expires_at := 100, active := true }

/-- Database holding only the session `rowTok`. -/
def dbTok : DbState := { users := [], sessions := [rowTok], messages_meta := [] }

/-- Uniqueness of session tokens, guaranteed in the source by the UNIQUE
constraint on the session_token column (database.py line 96). -/
def tokens_unique (l : List SessionRow) : Prop :=
  l.Pairwise (fun a b => a.session_token ≠ b.session_token)

/-! ## Theorems -/

/-- Claim C1: for every UTF-8 string m and valid keypairs (A, B) with a
matching session, decrypt(encrypt(m, B.public), A.public) returns exactly m.
The code violates this: encrypt_message stretches the raw ECDH output through
HKDF-SHA256 (inside derive_shared_secret) before expanding it with
HKDF-SHA512, while decrypt_message feeds the raw exchange output into the
HKDF-SHA512 directly, so the receiver derives different key material, the
recomputed MAC differs from the envelope MAC, and decryption aborts with the
integrity failure for every message.  The concrete round trip of "hello"
between Alice (identity 0) and Bob (identity 1, ephemeral 5) evaluates to
IntegrityFailure, not "hello". -/
theorem roundtrip_decrypt_of_encrypt_fails_integrity :
    roundTrip = Except.error CryptoErr.integrityFailure := by
  decide

/-- Claim C3: forwarding a direct message to an offline receiver delivers
nothing, queues nothing and logs nothing, but the error frame the code
returns carries the suggestion text promising delivery at the next login -
not a notice that the message will not be queued.  The first conjunct
evaluates the handler on an offline receiver (state unchanged, no
deliveries); the second evaluates it on an online receiver (metadata logged,
envelope forwarded unchanged to exactly the writer of that receiver). -/
theorem direct_message_offline_eval :
    (handle_rimaytik_direct_message srvS (some "alice") (some "bob") (some "m1")
        (some "ENV") (some 50) 60 =
      (srvS,
       { rtype := "rimaytik_error",
         error := some "Получатель не в сети",
         message_id := some "m1",
         suggestion := some "Сообщение будет доставлено при следующем входе" },
       [])) ∧
    (handle_rimaytik_direct_message srvS2 (some "alice") (some "bob") (some "m1")
        (some "ENV") (some 50) 60 =
      ({ srvS2 with db := log_rimaytik_message srvS2.db "m1" "alice" "bob" (sha256hex "ENV") },
       { rtype := "rimaytik_success", status := some "delivered",
         message_id := some "m1", ts := some 60 },
       [(20, { sender := some "alice", receiver := "bob", message_id := "m1",
               encrypted_data := "ENV", msg_timestamp := some 50 })])) := by
  constructor
  · decide
  · decide

/-- Claim C4: disconnect(username) for a registered user removes the
connection entry, removes the user from the online set, marks the persisted
status offline and broadcasts presence.  The code removes the entry and the
online-set member but then executes self.cursor.execute - RiMayTikServer has
no attribute cursor - so an AttributeError is raised, the persisted status
stays "online" and no broadcast happens: evaluated here on a state where
alice is registered. -/
theorem user_logout_attribute_error_eval :
    handle_user_logout srvS "alice" =
      ({ clients := [], online_users := [], db := dbS }, [],
       some "AttributeError: RiMayTikServer has no attribute cursor") ∧
    dbS.users.map UserRow.status = ["online"] := by
  constructor
  · decide
  · decide

/-- Claim C5 counterexample: the verified flag is not preserved by every
Trust Manager operation.  After the key of bob is added and its fingerprint is
verified, the record is verified; re-running add_trusted_key with the very
same key overwrites the record with verified = False. -/
theorem trusted_key_verified_downgrade_counterexample :
    (find_trusted kmVerified "bob").map TrustedKey.verified = some true ∧
    (find_trusted kmReAdded "bob").map TrustedKey.verified = some false := by
  constructor
  · decide
  · decide

/-- Claim C2: decrypt performs its authenticity checks in the fixed order MAC
check, then signature check, then AEAD decrypt.  Part one: a MAC mismatch
makes decrypt fail with IntegrityFailure (whatever the signature or the
ciphertext are, so before any decryption).  Part two: with the MAC matching,
a failing signature makes decrypt fail with SignatureFailure before the AEAD
step.  Part three: a produced plaintext implies both the MAC comparison and
the signature verification succeeded. -/
theorem decrypt_authenticity_check_order :
    ∀ (e : Engine) (env : Envelope) (p : B) (i j : Nat),
      e.ephemeral_id = some i →
      env.ephemeral_public_key = B.ephPub j →
      (env.hmac ≠ recomputed_mac env i j →
          decrypt_message e env p = Except.error CryptoErr.integrityFailure) ∧
      (env.hmac = recomputed_mac env i j →
          verify_signature (B.cat env.ciphertext (B.cat env.iv env.hmac)) env.sig p = false →
          decrypt_message e env p = Except.error CryptoErr.signatureFailure) ∧
      (∀ (m : String) (e2 : Engine), decrypt_message e env p = Except.ok (m, e2) →
          env.hmac = recomputed_mac env i j ∧
          verify_signature (B.cat env.ciphertext (B.cat env.iv env.hmac)) env.sig p = true) := by
  intro e env p i j h1 h2
  refine ⟨?_, ?_, ?_⟩
  · intro hne
    simp only [decrypt_message, h1, h2]
    rw [if_neg (by simpa [recomputed_mac] using hne)]
  · intro heq hsig
    simp only [decrypt_message, h1, h2]
    rw [if_pos (by simpa [recomputed_mac] using heq)]
    simp [hsig]
  · intro m e2 hok
    simp only [decrypt_message, h1, h2] at hok
    by_cases heq : env.hmac = recomputed_mac env i j
    · refine ⟨heq, ?_⟩
      by_cases hs : verify_signature (B.cat env.ciphertext (B.cat env.iv env.hmac)) env.sig p = true
      · exact hs
      · rw [if_pos (by simpa [recomputed_mac] using heq)] at hok
        rw [Bool.not_eq_true] at hs
        simp [hs] at hok
    · rw [if_neg (by simpa [recomputed_mac] using heq)] at hok
      simp at hok

/-- Witness for C2: a concrete envelope whose hmac cannot be the recomputed
MAC is rejected with IntegrityFailure. -/
theorem decrypt_authenticity_check_order_witness :
    decrypt_message engineB envBad (B.idPub 0) = Except.error CryptoErr.integrityFailure :=
  (decrypt_authenticity_check_order engineB envBad (B.idPub 0) 5 7 rfl rfl).1 (by decide)

/-- Claim C6: every envelope produced by encrypt carries a MAC computed over
ciphertext, iv and metadata under the MAC half of the derived key material -
a key distinct from the encryption half under which the ciphertext was
produced (the two are independent 32-byte halves of one HKDF-SHA512
expansion, spec section 4.2) - and a signature by the long-term
identity private key over ciphertext, iv and mac. -/
theorem envelope_mac_key_and_sig_coverage :
    ∀ (e : Engine) (msg : String) (j freshEph : Nat) (salt iv : B) (ts sigRand : Nat)
      (msgId : String) (env : Envelope) (e2 : Engine),
      encrypt_message e msg (B.ephPub j) freshEph salt iv ts sigRand msgId =
        Except.ok (env, e2) →
      (env.hmac = B.blake2b (B.macHalf (B.hkdf256 (dhShared freshEph j)) salt)
          (B.cat env.ciphertext (B.cat env.iv env.metadata)) ∧
       B.macHalf (B.hkdf256 (dhShared freshEph j)) salt ≠
         B.encHalf (B.hkdf256 (dhShared freshEph j)) salt ∧
       env.ciphertext = B.gcmCt (B.encHalf (B.hkdf256 (dhShared freshEph j)) salt)
         env.iv (B.str msg) env.metadata ∧
       env.sig = B.pssSig e.identity_id (B.cat env.ciphertext (B.cat env.iv env.hmac)) sigRand) := by
  intro e msg j freshEph salt iv ts sigRand msgId env e2 h
  simp only [encrypt_message] at h
  injection h with h1
  injection h1 with henv he2
  subst henv
  exact ⟨rfl, fun hcontra => B.noConfusion hcontra, rfl, rfl⟩

/-- Witness for C6: the concrete envelope of the "hello" encryption. -/
theorem envelope_mac_key_and_sig_coverage_witness :
    envA.hmac = B.blake2b (B.macHalf (B.hkdf256 (dhShared 7 5)) (B.rand 1))
        (B.cat envA.ciphertext (B.cat envA.iv envA.metadata)) ∧
    B.macHalf (B.hkdf256 (dhShared 7 5)) (B.rand 1) ≠
      B.encHalf (B.hkdf256 (dhShared 7 5)) (B.rand 1) ∧
    envA.ciphertext = B.gcmCt (B.encHalf (B.hkdf256 (dhShared 7 5)) (B.rand 1))
      envA.iv (B.str "hello") envA.metadata ∧
    envA.sig = B.pssSig engineA.identity_id (B.cat envA.ciphertext (B.cat envA.iv envA.hmac)) 3 :=
  envelope_mac_key_and_sig_coverage engineA "hello" 5 7 (B.rand 1) (B.rand 2) 100 3 "m1"
    envA engineA2 (by decide)

/-- Helper: the first ratchet call for a peer installs send = receive = the
fresh shared secret with counter 0. -/
theorem ratchet_find_first : ∀ (sk : List (B × SessionKeys)) (user sec : B),
    find_session sk user = none →
    find_session (ratchet_keys sk user sec) user = some ⟨sec, sec, 0⟩ := by
  intro sk user sec
  induction sk with
  | nil => intro _; simp [ratchet_keys, find_session]
  | cons head rest ih =>
      obtain ⟨u, st⟩ := head
      intro h
      by_cases hu : u = user
      · simp [find_session, hu] at h
      · simp only [find_session, if_neg hu] at h
        simp only [ratchet_keys, if_neg hu, find_session]
        exact ih h

/-- Helper: a later ratchet call replaces the stored chains by the two halves
of the KDF of the sending chain key and increments the counter. -/
theorem ratchet_find_next : ∀ (sk : List (B × SessionKeys)) (user sec : B) (st : SessionKeys),
    find_session sk user = some st →
    find_session (ratchet_keys sk user sec) user =
      some ⟨B.ratchetSend st.chain_key_send, B.ratchetRecv st.chain_key_send,
            st.message_number + 1⟩ := by
  intro sk user sec st
  induction sk with
  | nil => intro h; simp [find_session] at h
  | cons head rest ih =>
      obtain ⟨u, st0⟩ := head
      intro h
      by_cases hu : u = user
      · subst hu
        simp only [find_session, if_pos rfl] at h
        injection h with h0
        subst h0
        simp [ratchet_keys, find_session]
      · simp only [find_session, if_neg hu] at h
        simp only [ratchet_keys, if_neg hu, find_session]
        exact ih h

/-- Claim C7: the first key agreement with a peer initialises the ratchet
state with sendingChainKey = receivingChainKey = sharedSecret and counter 0;
every later successful decrypt derives KDF(sendingChainKey), splits it into
the new send/receive chain keys and increments the counter; and every
successful decrypt updates the session store exactly by that ratchet step,
keyed by the peer and the freshly computed shared secret. -/
theorem ratchet_state_transitions :
    ∀ (sk : List (B × SessionKeys)) (user sec : B),
      (find_session sk user = none →
        find_session (ratchet_keys sk user sec) user = some ⟨sec, sec, 0⟩) ∧
      (∀ st, find_session sk user = some st →
        find_session (ratchet_keys sk user sec) user =
          some ⟨B.ratchetSend st.chain_key_send, B.ratchetRecv st.chain_key_send,
                st.message_number + 1⟩) ∧
      (∀ (e : Engine) (env : Envelope) (p : B) (m : String) (e2 : Engine) (i j : Nat),
        e.ephemeral_id = some i → env.ephemeral_public_key = B.ephPub j →
        decrypt_message e env p = Except.ok (m, e2) →
        e2.session_keys = ratchet_keys e.session_keys p (dhShared i j)) := by
  intro sk user sec
  refine ⟨ratchet_find_first sk user sec, fun st h => ratchet_find_next sk user sec st h, ?_⟩
  intro e env p m e2 i j h1 h2 hok
  simp only [decrypt_message, h1, h2] at hok
  split at hok
  · split at hok
    · split at hok
      · injection hok with hpair
        injection hpair with hm he2
        subst he2
        rfl
      · simp at hok
      · simp at hok
    · simp at hok
  · simp at hok

/-- Witness for C7: a fresh peer is installed with chains equal to the shared
secret and counter 0; a second ratchet step splits the KDF of the sending
chain key and increments the counter. -/
theorem ratchet_state_transitions_witness :
    find_session (ratchet_keys [] (B.idPub 9) (B.rand 3)) (B.idPub 9) =
      some ⟨B.rand 3, B.rand 3, 0⟩ ∧
    find_session (ratchet_keys (ratchet_keys [] (B.idPub 9) (B.rand 3)) (B.idPub 9) (B.rand 4))
        (B.idPub 9) =
      some ⟨B.ratchetSend (B.rand 3), B.ratchetRecv (B.rand 3), 1⟩ := by
  constructor
  · exact (ratchet_state_transitions [] (B.idPub 9) (B.rand 3)).1 (by decide)
  · exact (ratchet_state_transitions (ratchet_keys [] (B.idPub 9) (B.rand 3)) (B.idPub 9)
      (B.rand 4)).2.1 ⟨B.rand 3, B.rand 3, 0⟩ (by decide)

/-- Helper: dict assignment followed by lookup of the same username yields
the stored record. -/
theorem find_set_same : ∀ (l : KeyManager) (u : String) (r : TrustedKey),
    find_trusted (set_trusted l u r) u = some r := by
  intro l u r
  induction l with
  | nil => simp [set_trusted, find_trusted]
  | cons head rest ih =>
      obtain ⟨v, old⟩ := head
      by_cases hv : v = u
      · simp [set_trusted, find_trusted, hv]
      · simp only [set_trusted, if_neg hv, find_trusted]
        exact ih

/-- Helper: dict assignment leaves lookups of other usernames unchanged. -/
theorem find_set_ne : ∀ (l : KeyManager) (u w : String) (r : TrustedKey),
    u ≠ w → find_trusted (set_trusted l u r) w = find_trusted l w := by
  intro l u w r huw
  induction l with
  | nil => simp [set_trusted, find_trusted, huw]
  | cons head rest ih =>
      obtain ⟨v, old⟩ := head
      by_cases hv : v = u
      · subst hv
        simp only [set_trusted, if_pos rfl, find_trusted]
        rw [if_neg huw, if_neg huw]
      · simp only [set_trusted, if_neg hv, find_trusted]
        by_cases hw : v = w
        · rw [if_pos hw, if_pos hw]
        · rw [if_neg hw, if_neg hw]
          exact ih

/-- Claim C5, amended: the verified flag of a trusted-key record becomes true
only through an explicit fingerprint verification matching the stored
fingerprint exactly; and the only operation that takes it back from true to
not-true is add_trusted_key re-observing that username (which overwrites the
record with verified = False). -/
theorem trusted_key_verified_transitions :
    ∀ (km : KeyManager) (op : TrustOp) (u : String),
      ((find_trusted km u).map TrustedKey.verified ≠ some true →
       (find_trusted (applyTrustOp km op) u).map TrustedKey.verified = some true →
       ∃ rec, find_trusted km u = some rec ∧ op = TrustOp.verify u rec.fingerprint) ∧
      ((find_trusted km u).map TrustedKey.verified = some true →
       (find_trusted (applyTrustOp km op) u).map TrustedKey.verified ≠ some true →
       ∃ k fp now, op = TrustOp.add u k fp now) := by
  intro km op u
  cases op with
  | add u2 k fp now =>
      by_cases hu : u2 = u
      · subst hu
        refine ⟨?_, ?_⟩
        · intro h1 h2
          simp only [applyTrustOp, add_trusted_key, find_set_same] at h2
          simp at h2
        · intro _ _
          exact ⟨k, fp, now, rfl⟩
      · have hne : find_trusted (applyTrustOp km (TrustOp.add u2 k fp now)) u
            = find_trusted km u := by
          simp only [applyTrustOp, add_trusted_key]
          exact find_set_ne km u2 u _ hu
        refine ⟨?_, ?_⟩
        · intro h1 h2
          rw [hne] at h2
          exact absurd h2 h1
        · intro h1 h2
          rw [hne] at h2
          exact absurd h1 h2
  | verify u2 fp =>
      cases hf : find_trusted km u2 with
      | none =>
          have hkm : applyTrustOp km (TrustOp.verify u2 fp) = km := by
            simp [applyTrustOp, verify_key_fingerprint, hf]
          rw [hkm]
          exact ⟨fun h1 h2 => absurd h2 h1, fun h1 h2 => absurd h1 h2⟩
      | some rec0 =>
          by_cases hfp : fp = rec0.fingerprint
          · have hkm : applyTrustOp km (TrustOp.verify u2 fp) =
                set_trusted km u2 { rec0 with verified := true } := by
              simp [applyTrustOp, verify_key_fingerprint, hf, hfp]
            by_cases hu : u2 = u
            · subst hu
              refine ⟨?_, ?_⟩
              · intro h1 h2
                exact ⟨rec0, hf, by rw [hfp]⟩
              · intro h1 h2
                rw [hkm, find_set_same] at h2
                simp at h2
            · refine ⟨?_, ?_⟩
              · intro h1 h2
                rw [hkm, find_set_ne km u2 u _ hu] at h2
                exact absurd h2 h1
              · intro h1 h2
                rw [hkm, find_set_ne km u2 u _ hu] at h2
                exact absurd h1 h2
          · have hkm : applyTrustOp km (TrustOp.verify u2 fp) = km := by
              simp [applyTrustOp, verify_key_fingerprint, hf, hfp]
            rw [hkm]
            exact ⟨fun h1 h2 => absurd h2 h1, fun h1 h2 => absurd h1 h2⟩
  | status u2 =>
      exact ⟨fun h1 h2 => absurd h2 h1, fun h1 h2 => absurd h1 h2⟩

/-- Witness for C5 (amended): the record of bob flips to verified through the
matching fingerprint verification, so the only-via-verify direction applies
to the concrete store. -/
theorem trusted_key_verified_transitions_witness :
    ∃ rec, find_trusted kmAdded "bob" = some rec ∧
      TrustOp.verify "bob" (calculate_fingerprint "KEYPEM") =
        TrustOp.verify "bob" rec.fingerprint :=
  (trusted_key_verified_transitions kmAdded
      (TrustOp.verify "bob" (calculate_fingerprint "KEYPEM")) "bob").1
    (by decide) (by decide)

/-- Claim C9: verifyFingerprint is total (the model is a total function,
matching the Python code, which has no raising path), returns true and marks
the stored record verified exactly when a record exists for the username and
the candidate equals the stored fingerprint, and returns false leaving the
store unchanged in every other case, including an unknown username. -/
theorem verify_fingerprint_exact_match_spec :
    ∀ (km : KeyManager) (u fp : String),
      ((verify_key_fingerprint km u fp).1 = true ↔
        ∃ rec, find_trusted km u = some rec ∧ fp = rec.fingerprint) ∧
      (∀ rec, find_trusted km u = some rec → fp = rec.fingerprint →
        (verify_key_fingerprint km u fp).2 = set_trusted km u { rec with verified := true }) ∧
      ((verify_key_fingerprint km u fp).1 = false → (verify_key_fingerprint km u fp).2 = km) := by
  intro km u fp
  cases hf : find_trusted km u with
  | none =>
      refine ⟨?_, ?_, ?_⟩
      · simp [verify_key_fingerprint, hf]
      · intro rec hrec
        exact Option.noConfusion hrec
      · intro _
        simp [verify_key_fingerprint, hf]
  | some rec0 =>
      by_cases hfp : fp = rec0.fingerprint
      · refine ⟨?_, ?_, ?_⟩
        · simp only [verify_key_fingerprint, hf, if_pos hfp]
          exact ⟨fun _ => ⟨rec0, rfl, hfp⟩, fun _ => trivial⟩
        · intro rec hrec hfp2
          injection hrec with h0
          subst h0
          simp [verify_key_fingerprint, hf, hfp]
        · intro hfalse
          simp only [verify_key_fingerprint, hf, if_pos hfp] at hfalse
          cases hfalse
      · refine ⟨?_, ?_, ?_⟩
        · simp only [verify_key_fingerprint, hf, if_neg hfp]
          constructor
          · intro hcontra
            cases hcontra
          · rintro ⟨rec, hrec, hfpr⟩
            injection hrec with h0
            subst h0
            exact (hfp hfpr).elim
        · intro rec hrec hfp2
          injection hrec with h0
          subst h0
          exact (hfp hfp2).elim
        · intro _
          simp [verify_key_fingerprint, hf, hfp]

/-- Witness for C9: a wrong candidate leaves the concrete store unchanged. -/
theorem verify_fingerprint_exact_match_spec_witness :
    (verify_key_fingerprint kmAdded "bob" "wrong").2 = kmAdded :=
  (verify_fingerprint_exact_match_spec kmAdded "bob" "wrong").2.2 (by decide)

/-- Helper: the session query returns no row when no stored session carries
the token. -/
theorem find_valid_session_absent : ∀ (l : List SessionRow) (token : String) (now : Nat),
    (∀ r, r ∈ l → r.session_token ≠ token) → find_valid_session l token now = none := by
  intro l token now
  induction l with
  | nil => intro _; rfl
  | cons x rest ih =>
      intro h
      have hx : x.session_token ≠ token := h x (List.mem_cons_self x rest)
      simp only [find_valid_session]
      rw [if_neg (fun hc => hx hc.1)]
      exact ih (fun r hr => h r (List.mem_cons_of_mem x hr))

/-- Helper: with unique tokens, scanning for the token of a stored row finds that
row exactly when it is active and unexpired, and nothing otherwise. -/
theorem find_valid_session_unique : ∀ (l : List SessionRow) (r : SessionRow) (now : Nat),
    l.Pairwise (fun a b => a.session_token ≠ b.session_token) → r ∈ l →
    find_valid_session l r.session_token now =
      if r.active = true ∧ now < r.expires_at then some r.user_id else none := by
  intro l r now
  induction l with
  | nil => intro _ hm; cases hm
  | cons x rest ih =>
      intro hp hm
      rw [List.pairwise_cons] at hp
      obtain ⟨hx, hrest⟩ := hp
      rcases List.mem_cons.mp hm with hrx | hmem
      · subst hrx
        simp only [find_valid_session]
        by_cases hc : r.active = true ∧ now < r.expires_at
        · simp [hc]
        · simp [hc]
          exact find_valid_session_absent rest r.session_token now
            (fun b hb => Ne.symm (hx b hb))
      · have hxr : x.session_token ≠ r.session_token := hx r hmem
        simp only [find_valid_session]
        rw [if_neg (fun hcc => hxr hcc.1)]
        exact ih hrest hmem

/-- Claim C8: for a session row stored in the table (tokens are unique by
the UNIQUE constraint), validate of its token returns the bound user id
exactly when the active flag is true and the current time is strictly before
expires_at; in every other state - after revocation (active = false) or past
expiry - it returns Invalid (None). -/
theorem session_validate_iff_active_unexpired :
    ∀ (db : DbState) (r : SessionRow) (now : Nat),
      tokens_unique db.sessions → r ∈ db.sessions →
      (validate_rimaytik_session db r.session_token now = some r.user_id ↔
        (r.active = true ∧ now < r.expires_at)) := by
  intro db r now hu hm
  unfold validate_rimaytik_session
  rw [find_valid_session_unique db.sessions r now hu hm]
  by_cases hc : r.active = true ∧ now < r.expires_at
  · simp [hc]
  · simp [hc]

/-- Witness for C8: the concrete active, unexpired session validates to its
user id. -/
theorem session_validate_iff_active_unexpired_witness :
    validate_rimaytik_session dbTok "tok" 50 = some 1 :=
  (session_validate_iff_active_unexpired dbTok rowTok 50 (by simp [tokens_unique, dbTok])
      (by decide)).mpr ⟨rfl, by decide⟩

/-- Claim C10: a registration request whose password has fewer than 8
characters is answered with an error frame, the account store is not called
(empty call trace) and the whole server state - users, sessions, metadata
rows, connection entries, online set - is returned unchanged.  (A password
failing the earlier field-presence check, the empty string, also lands in an
error frame with no store call.) -/
theorem register_short_password_rejected :
    ∀ (s : ServerState) (username display_name public_key : Option String) (p : String)
      (w : Nat) (ip : String) (now : Nat),
      p.length < 8 →
      (handle_rimaytik_register s username display_name public_key (some p) w ip now).1 = s ∧
      (handle_rimaytik_register s username display_name public_key (some p) w ip now).2.1.rtype
        = "rimaytik_error" ∧
      (handle_rimaytik_register s username display_name public_key (some p) w ip now).2.2 = [] := by
  intro s un dn pk p w ip now h
  cases un with
  | none => exact ⟨rfl, rfl, rfl⟩
  | some u =>
    cases pk with
    | none =>
        by_cases hu : u = ""
        · simp [handle_rimaytik_register, truthy, hu]
        · simp [handle_rimaytik_register, truthy, hu]
    | some k =>
        by_cases hu : u = "" <;> by_cases hk : k = "" <;> by_cases hp0 : p = "" <;>
          simp [handle_rimaytik_register, truthy, hu, hk, hp0, h]

/-- Witness for C10: a concrete 5-character password is rejected with the
state unchanged and no store call. -/
theorem register_short_password_rejected_witness :
    (handle_rimaytik_register srvS (some "dave") none (some "PK_D") (some "short") 11 "ip" 5).1
      = srvS ∧
    (handle_rimaytik_register srvS (some "dave") none (some "PK_D") (some "short") 11 "ip" 5).2.1.rtype
      = "rimaytik_error" ∧
    (handle_rimaytik_register srvS (some "dave") none (some "PK_D") (some "short") 11 "ip" 5).2.2
      = [] :=
  register_short_password_rejected srvS (some "dave") none (some "PK_D") "short" 11 "ip" 5
    (by decide)
